import Mathlib

/-!
Verification development for the TalkToCursor speech turn-taking coordinator.

The embedding models, from the source:
- the FIFO TTS queue, its mutual-exclusion flag `isProcessingQueue`, and the
  drain loop `processTTSQueue` of the MCP server (index.ts);
- the `listen` tool handler and its listen-signal file write;
- `loadConfig` / `saveConfig` merge logic (src/config.ts) and the settings
  server's GET/POST /api/config handlers with `maskKey`.

Time is modelled by a logical clock: every awaited synthesis/playback step of
the drain loop advances the clock, reflecting that each awaited operation of
the single-threaded event loop occupies strictly positive physical time and
that each signal-file timestamp is a fresh clock sample taken at write time.
-/

namespace TalkToCursor

/-- One entry of the TTS queue: the text to speak, tagged with its submission
index, which stands for the promise resolve/reject pair of the source
`TTSQueueItem` (ids are assigned in submission order). -/
structure TTSQueueItem where
  id : Nat
  text : String
deriving DecidableEq

/-- Result payload settled back to a tool caller: the textual content and the
`isError` flag of the source result objects. -/
structure ToolResult where
  text : String
  isError : Bool
deriving DecidableEq

/-- Environment outcome of one drain-loop iteration, chosen by the external
collaborators: the ElevenLabs convert call throws, `play` throws, the
completion-signal `writeFileSync` throws, or everything succeeds. -/
inductive ItemOutcome where
  | synthFail (msg : String)
  | playFail (msg : String)
  | writeFail (msg : String)
  | ok
deriving DecidableEq

/-- Whether the playback sink is reached in this outcome (convert succeeded). -/
def ItemOutcome.playAttempted : ItemOutcome → Bool
  | .synthFail _ => false
  | _ => true

/-- Whether the whole try-block runs to completion. -/
def ItemOutcome.isOk : ItemOutcome → Bool
  | .ok => true
  | _ => false

/-- The result the drain loop settles the item with: `item.resolve` with a
success payload on full success, `item.reject` with the caught error message
otherwise (source lines 78-99 of the server). -/
def settleOf (outcome : ItemOutcome) (text : String) : ToolResult :=
  match outcome with
  | .ok => ⟨"Spoken: \"" ++ text ++ "\"", false⟩
  | .synthFail msg => ⟨"Failed to speak: " ++ msg, true⟩
  | .playFail msg => ⟨"Failed to speak: " ++ msg, true⟩
  | .writeFail msg => ⟨"Failed to speak: " ++ msg, true⟩

/-- Coordinator state: the mutable module state of the server (queue, guard
flag, the tts-complete.json mailbox) together with observation logs (gateway
calls, playback intervals, settled results, past mailbox writes) and the
logical clock. -/
structure CoordState where
  ttsQueue : List TTSQueueItem
  isProcessingQueue : Bool
  nextId : Nat
  now : Nat
  settled : List (Nat × ToolResult)
  gatewayCalls : List (Nat × String)
  playbacks : List (Nat × Nat × Nat)
  completeFile : Option Nat
  completeWrites : List Nat
deriving DecidableEq

/-- Module-load state: empty queue, guard false, no signal file yet. -/
def initState : CoordState :=
  { ttsQueue := []
    isProcessingQueue := false
    nextId := 0
    now := 0
    settled := []
    gatewayCalls := []
    playbacks := []
    completeFile := none
    completeWrites := [] }

/-- One iteration of the `while (ttsQueue.length > 0)` drain loop, processing
the shifted head `item` with environment outcome `outcome`; `rest` is the
queue after the shift.  The convert call always happens; playback happens
unless convert threw; on full success the completion signal is overwritten
with a fresh timestamp and the item resolved; on any throw the catch block
rejects the item.  The loop then synchronously re-checks the queue: if it is
empty the loop exits and clears the guard. -/
def processItem (s : CoordState) (item : TTSQueueItem) (rest : List TTSQueueItem)
    (outcome : ItemOutcome) : CoordState :=
  let t0 := s.now
  { ttsQueue := rest
    isProcessingQueue := !rest.isEmpty
    nextId := s.nextId
    now := t0 + 3
    settled := s.settled ++ [(item.id, settleOf outcome item.text)]
    gatewayCalls := s.gatewayCalls ++ [(item.id, item.text)]
    playbacks := s.playbacks ++
      (if outcome.playAttempted then [(item.id, t0 + 1, t0 + 2)] else [])
    completeFile := if outcome.isOk then some (t0 + 2) else s.completeFile
    completeWrites := s.completeWrites ++ (if outcome.isOk then [t0 + 2] else []) }

/-- Observable events: a `speak(text)` tool call (queueTTS push followed by the
synchronous processTTSQueue entry check), or one drain-loop iteration with its
environment outcome. -/
inductive Event where
  | speak (text : String)
  | drainStep (outcome : ItemOutcome)
deriving DecidableEq

/-- The transition function.  `speak`: push the request, then processTTSQueue
returns at once when `isProcessingQueue` is already true, otherwise sets the
guard and starts draining.  `drainStep`: one iteration of an active drain
loop (a no-op when no loop is active, i.e. the guard is false). -/
def step (s : CoordState) : Event → CoordState
  | .speak text =>
    let s1 : CoordState :=
      { s with ttsQueue := s.ttsQueue ++ [⟨s.nextId, text⟩], nextId := s.nextId + 1 }
    if s1.isProcessingQueue then s1 else { s1 with isProcessingQueue := true }
  | .drainStep outcome =>
    if s.isProcessingQueue then
      match s.ttsQueue with
      | [] => s
      | item :: rest => processItem s item rest outcome
    else
      s

/-- Run a trace of events from the module-load state. -/
def run (evs : List Event) : CoordState :=
  evs.foldl step initState

/-- Reachability invariant of the coordinator. -/
def Inv (s : CoordState) : Prop :=
  (s.settled.map Prod.fst ++ s.ttsQueue.map TTSQueueItem.id = List.range s.nextId)
  ∧ s.isProcessingQueue = !s.ttsQueue.isEmpty
  ∧ s.gatewayCalls.map Prod.fst = s.settled.map Prod.fst
  ∧ (s.playbacks.map Prod.fst).Sublist (s.settled.map Prod.fst)
  ∧ s.playbacks.Pairwise (fun a b => a.2.2 < b.2.1)
  ∧ (∀ p ∈ s.playbacks, p.2.1 < p.2.2 ∧ p.2.2 < s.now)
  ∧ s.completeWrites.Pairwise (· < ·)
  ∧ (∀ t ∈ s.completeWrites, t < s.now)
  ∧ s.completeFile = s.completeWrites.getLast?

theorem inv_initState : Inv initState := by
  refine ⟨rfl, rfl, rfl, .slnil, .nil, ?_, .nil, ?_, rfl⟩ <;> simp [initState]

theorem inv_step (s : CoordState) (e : Event) (h : Inv s) : Inv (step s e) := by
  obtain ⟨hA, hB, hC, hD, hE, hF, hG, hH, hI⟩ := h
  cases e with
  | speak text =>
    have hgoal :
        Inv { s with
                ttsQueue := s.ttsQueue ++ [⟨s.nextId, text⟩],
                nextId := s.nextId + 1,
                isProcessingQueue := true } := by
      refine ⟨?_, ?_, hC, ?_, hE, hF, hG, hH, hI⟩
      · simp only [List.map_append, List.range_succ, ← List.append_assoc, ← hA]
        rfl
      · simp
      · simpa using hD
    simp only [step]
    split
    · rename_i hflag
      have hflag' : s.isProcessingQueue = true := hflag
      have : (!(s.ttsQueue ++ [(⟨s.nextId, text⟩ : TTSQueueItem)]).isEmpty) = true := by
        simp
      simpa [hflag'] using hgoal
    · exact hgoal
  | drainStep outcome =>
    match hq : s.ttsQueue with
    | [] =>
      have hstep : step s (.drainStep outcome) = s := by
        simp only [step, hq]
        split <;> rfl
      rw [hstep]
      exact ⟨hA, hB, hC, hD, hE, hF, hG, hH, hI⟩
    | item :: rest =>
      have hflag : s.isProcessingQueue = true := by
        rw [hB, hq]
        rfl
      have hstep : step s (.drainStep outcome) = processItem s item rest outcome := by
        simp [step, hq, hflag]
      rw [hstep]
      rw [hq] at hA
      refine ⟨?_, rfl, ?_, ?_, ?_, ?_, ?_, ?_, ?_⟩
      · simpa [processItem, List.append_assoc] using hA
      · simp [processItem, hC]
      · simp only [processItem, List.map_append]
        refine List.Sublist.append hD ?_
        split <;> simp
      · simp only [processItem]
        refine List.pairwise_append.mpr ⟨hE, ?_, ?_⟩
        · split <;> simp
        · intro a ha b hb
          split at hb
          · simp only [List.mem_singleton] at hb
            subst hb
            exact Nat.lt_succ_of_lt (hF a ha).2
          · simp at hb
      · intro p hp
        simp only [processItem, List.mem_append] at hp
        rcases hp with hp | hp
        · have := hF p hp
          simp only [processItem]
          omega
        · split at hp
          · simp only [List.mem_singleton] at hp
            subst hp
            exact ⟨Nat.lt_succ_self _, Nat.lt_succ_self _⟩
          · simp at hp
      · simp only [processItem]
        refine List.pairwise_append.mpr ⟨hG, ?_, ?_⟩
        · split <;> simp
        · intro a ha b hb
          split at hb
          · simp only [List.mem_singleton] at hb
            subst hb
            exact Nat.lt_succ_of_lt (Nat.lt_succ_of_lt (hH a ha))
          · simp at hb
      · intro t ht
        simp only [processItem, List.mem_append] at ht
        rcases ht with ht | ht
        · have := hH t ht
          simp only [processItem]
          omega
        · split at ht
          · simp only [List.mem_singleton] at ht
            subst ht
            exact Nat.lt_succ_self _
          · simp at ht
      · simp only [processItem]
        split
        · simp
        · simpa using hI

theorem inv_foldl : ∀ (l : List Event) (s : CoordState), Inv s → Inv (l.foldl step s)
  | [], _, h => h
  | e :: l, s, h => inv_foldl l (step s e) (inv_step s e h)

theorem inv_run (evs : List Event) : Inv (run evs) :=
  inv_foldl evs initState inv_initState

/-- Content of listen-signal.json: a timestamp and the `triggered` flag. -/
structure ListenSignal where
  timestamp : Nat
  triggered : Bool
deriving DecidableEq

/-- The listen tool handler (server source lines 139-186).  `autoListen` is the
startup effective-config flag; `writeErr` is the environment's behaviour of the
`writeFileSync` call (none means it succeeds, some msg means it throws);
`now` is the clock sample for the fresh signal; `file` is the current content
of listen-signal.json.  Returns the tool result and the new file content. -/
def listenHandler (autoListen : Bool) (writeErr : Option String) (now : Nat)
    (file : Option ListenSignal) : ToolResult × Option ListenSignal :=
  if !autoListen then
    (⟨"Auto-listen is disabled", false⟩, file)
  else
    match writeErr with
    | none => (⟨"Listening for user input...", false⟩, some ⟨now, true⟩)
    | some msg => (⟨"Failed to start listening: " ++ msg, true⟩, file)

/-- Voice tuning settings (src/config.ts).  The JSON numbers carry no
arithmetic in the code, so they are embedded as exact rationals. -/
structure VoiceSettings where
  speed : ℚ
  stability : ℚ
  similarityBoost : ℚ
  style : ℚ
deriving DecidableEq

/-- Auto-submit settings (src/config.ts). -/
structure AutoSubmitSettings where
  enabled : Bool
  silenceDelay : ℚ
  minTextLength : Nat
  targetApp : String
deriving DecidableEq

/-- Wispr loop settings (src/config.ts). -/
structure WisprLoopSettings where
  enabled : Bool
  ttsDelay : ℚ
  silenceThreshold : ℚ
  silenceDuration : ℚ
  wisprHotkey : String
  manualTriggerHotkey : String
deriving DecidableEq

/-- The full persisted configuration (src/config.ts interface Config). -/
structure Config where
  apiKey : String
  voiceId : String
  model : String
  voiceSettings : VoiceSettings
  autoSubmit : AutoSubmitSettings
  wisprLoop : WisprLoopSettings
  autoListen : Bool
deriving DecidableEq

def DEFAULT_VOICE_SETTINGS : VoiceSettings :=
  { speed := 1.0, stability := 0.5, similarityBoost := 0.75, style := 0.0 }

def DEFAULT_AUTO_SUBMIT : AutoSubmitSettings :=
  { enabled := false, silenceDelay := 3.0, minTextLength := 15, targetApp := "Cursor" }

def DEFAULT_WISPR_LOOP : WisprLoopSettings :=
  { enabled := false, ttsDelay := 8.0, silenceThreshold := 0.02, silenceDuration := 2.0,
    wisprHotkey := "shift+ctrl", manualTriggerHotkey := "ctrl+shift+l" }

def DEFAULT_CONFIG : Config :=
  { apiKey := "", voiceId := "21m00Tcm4TlvDq8ikWAM", model := "eleven_flash_v2_5",
    voiceSettings := DEFAULT_VOICE_SETTINGS, autoSubmit := DEFAULT_AUTO_SUBMIT,
    wisprLoop := DEFAULT_WISPR_LOOP, autoListen := true }

/-- A possibly-incomplete voiceSettings object as found in config.json: JSON
fields are present (some) or absent (none). -/
structure VoicePatch where
  speed : Option ℚ := none
  stability : Option ℚ := none
  similarityBoost : Option ℚ := none
  style : Option ℚ := none
deriving DecidableEq

/-- A possibly-incomplete autoSubmit object as found in config.json. -/
structure AutoSubmitPatch where
  enabled : Option Bool := none
  silenceDelay : Option ℚ := none
  minTextLength : Option Nat := none
  targetApp : Option String := none
deriving DecidableEq

/-- A possibly-incomplete wisprLoop object as found in config.json. -/
structure WisprLoopPatch where
  enabled : Option Bool := none
  ttsDelay : Option ℚ := none
  silenceThreshold : Option ℚ := none
  silenceDuration : Option ℚ := none
  wisprHotkey : Option String := none
  manualTriggerHotkey : Option String := none
deriving DecidableEq

/-- A possibly-incomplete parsed config.json object: each top-level key is
present or absent, and the three nested objects may themselves be incomplete. -/
structure ConfigPatch where
  apiKey : Option String := none
  voiceId : Option String := none
  model : Option String := none
  voiceSettings : Option VoicePatch := none
  autoSubmit : Option AutoSubmitPatch := none
  wisprLoop : Option WisprLoopPatch := none
  autoListen : Option Bool := none
deriving DecidableEq

/-- The observable states of config.json from loadConfig's point of view:
missing file (existsSync false), readFileSync throws, JSON.parse throws, or a
successfully parsed object. -/
inductive ConfigFile where
  | absent
  | unreadable
  | invalidJson
  | json (p : ConfigPatch)
deriving DecidableEq

/-- JS object spread of a voiceSettings patch over the defaults, as in the
source literal (spread keeps a parsed key's value and falls back to the
default when the key is absent). -/
def mergeVoiceSettings (p : VoicePatch) : VoiceSettings :=
  { speed := p.speed.getD DEFAULT_VOICE_SETTINGS.speed
    stability := p.stability.getD DEFAULT_VOICE_SETTINGS.stability
    similarityBoost := p.similarityBoost.getD DEFAULT_VOICE_SETTINGS.similarityBoost
    style := p.style.getD DEFAULT_VOICE_SETTINGS.style }

/-- JS object spread of an autoSubmit patch over the defaults. -/
def mergeAutoSubmit (p : AutoSubmitPatch) : AutoSubmitSettings :=
  { enabled := p.enabled.getD DEFAULT_AUTO_SUBMIT.enabled
    silenceDelay := p.silenceDelay.getD DEFAULT_AUTO_SUBMIT.silenceDelay
    minTextLength := p.minTextLength.getD DEFAULT_AUTO_SUBMIT.minTextLength
    targetApp := p.targetApp.getD DEFAULT_AUTO_SUBMIT.targetApp }

/-- JS object spread of a wisprLoop patch over the defaults. -/
def mergeWisprLoop (p : WisprLoopPatch) : WisprLoopSettings :=
  { enabled := p.enabled.getD DEFAULT_WISPR_LOOP.enabled
    ttsDelay := p.ttsDelay.getD DEFAULT_WISPR_LOOP.ttsDelay
    silenceThreshold := p.silenceThreshold.getD DEFAULT_WISPR_LOOP.silenceThreshold
    silenceDuration := p.silenceDuration.getD DEFAULT_WISPR_LOOP.silenceDuration
    wisprHotkey := p.wisprHotkey.getD DEFAULT_WISPR_LOOP.wisprHotkey
    manualTriggerHotkey := p.manualTriggerHotkey.getD DEFAULT_WISPR_LOOP.manualTriggerHotkey }

/-- loadConfig (src/config.ts lines 76-103): on a missing file, a read error or
a parse error the try/catch yields a fresh copy of the defaults; on a parsed
object it spreads the parsed top-level keys over DEFAULT_CONFIG and then
overrides the three nested objects with per-field spreads over their defaults
(`parsed.voiceSettings || \x7b\x7d` turns an absent nested object into an
empty patch), and autoListen with the explicit undefined check. -/
def loadConfig : ConfigFile → Config
  | .json p =>
    { apiKey := p.apiKey.getD DEFAULT_CONFIG.apiKey
      voiceId := p.voiceId.getD DEFAULT_CONFIG.voiceId
      model := p.model.getD DEFAULT_CONFIG.model
      voiceSettings := mergeVoiceSettings (p.voiceSettings.getD {})
      autoSubmit := mergeAutoSubmit (p.autoSubmit.getD {})
      wisprLoop := mergeWisprLoop (p.wisprLoop.getD {})
      autoListen := p.autoListen.getD DEFAULT_CONFIG.autoListen }
  | _ => DEFAULT_CONFIG

/-- A POST /api/config request body (each JSON key present or absent), which is
also the shape of the `updates` record the handler builds and of saveConfig's
Partial argument; the nested objects the settings UI sends are full objects. -/
structure PostBody where
  apiKey : Option String := none
  voiceId : Option String := none
  model : Option String := none
  voiceSettings : Option VoiceSettings := none
  autoSubmit : Option AutoSubmitSettings := none
  wisprLoop : Option WisprLoopSettings := none
  autoListen : Option Bool := none
deriving DecidableEq

/-- The updates record the POST /api/config handler builds (server source
lines 251-258): every defined body field is copied, except that apiKey is
copied only when it is defined and not the empty string. -/
def buildUpdates (b : PostBody) : PostBody :=
  { apiKey := match b.apiKey with
      | some k => if k = "" then none else some k
      | none => none
    voiceId := b.voiceId
    model := b.model
    voiceSettings := b.voiceSettings
    autoSubmit := b.autoSubmit
    wisprLoop := b.wisprLoop
    autoListen := b.autoListen }

/-- JS object spread of the updates over the current config, as in saveConfig's
updated object. -/
def applyUpdates (current : Config) (u : PostBody) : Config :=
  { apiKey := u.apiKey.getD current.apiKey
    voiceId := u.voiceId.getD current.voiceId
    model := u.model.getD current.model
    voiceSettings := u.voiceSettings.getD current.voiceSettings
    autoSubmit := u.autoSubmit.getD current.autoSubmit
    wisprLoop := u.wisprLoop.getD current.wisprLoop
    autoListen := u.autoListen.getD current.autoListen }

/-- saveConfig (src/config.ts lines 105-110): load the current config from the
file state, spread the updates over it, persist and return the result. -/
def saveConfig (fs : ConfigFile) (u : PostBody) : Config :=
  applyUpdates (loadConfig fs) u

/-- maskKey (settings server source lines 334-337). -/
def maskKey (key : String) : String :=
  if key.length ≤ 8 then "****"
  else key.take 4 ++ "****" ++ key.drop (key.length - 4)

/-- The JSON payload both /api/config handlers respond with. -/
structure ConfigResponse where
  apiKey : String
  apiKeySet : Bool
  voiceId : String
  model : String
  voiceSettings : VoiceSettings
  autoSubmit : AutoSubmitSettings
  wisprLoop : WisprLoopSettings
  autoListen : Bool
deriving DecidableEq

/-- The response object built from a config by both handlers: the apiKey field
is `config.apiKey ? maskKey(config.apiKey) : ""` (empty string is falsy in
JS), apiKeySet is the truthiness of the stored key. -/
def configResponse (c : Config) : ConfigResponse :=
  { apiKey := if c.apiKey = "" then "" else maskKey c.apiKey
    apiKeySet := c.apiKey != ""
    voiceId := c.voiceId
    model := c.model
    voiceSettings := c.voiceSettings
    autoSubmit := c.autoSubmit
    wisprLoop := c.wisprLoop
    autoListen := c.autoListen }

/-- GET /api/config handler (server source lines 233-245). -/
def getApiConfig (fs : ConfigFile) : ConfigResponse :=
  configResponse (loadConfig fs)

/-- POST /api/config handler (server source lines 248-274): build the updates
from the body, save, and respond with the masked saved config.  Returns the
persisted config and the response. -/
def postApiConfig (fs : ConfigFile) (body : PostBody) : Config × ConfigResponse :=
  let saved := saveConfig fs (buildUpdates body)
  (saved, configResponse saved)

/-- The ids of the settled results of a reachable state are strictly
increasing (they are a prefix of the submission-order ids). -/
theorem settledIds_sorted (s : CoordState) (h : Inv s) :
    List.Pairwise (· < ·) (s.settled.map Prod.fst) := by
  have hsub : (s.settled.map Prod.fst).Sublist (List.range s.nextId) :=
    h.1 ▸ List.sublist_append_left _ _
  exact (List.pairwise_lt_range _).sublist hsub

/-- In a reachable state whose queue is non-empty, the guard is up and one
drain iteration is exactly one processItem on the head. -/
theorem step_drain_eq (s : CoordState) (h : Inv s) (item : TTSQueueItem)
    (rest : List TTSQueueItem) (hq : s.ttsQueue = item :: rest) (outcome : ItemOutcome) :
    step s (.drainStep outcome) = processItem s item rest outcome := by
  have hflag : s.isProcessingQueue = true := by
    rw [h.2.1, hq]
    rfl
  simp [step, hq, hflag]

/-- In a reachable state, a lowered guard means an empty queue. -/
theorem queue_nil_of_flag_false (s : CoordState) (h : Inv s)
    (hflag : s.isProcessingQueue = false) : s.ttsQueue = [] := by
  have hB := h.2.1
  rw [hflag] at hB
  cases hq : s.ttsQueue with
  | nil => rfl
  | cons a l =>
    rw [hq] at hB
    simp at hB

/-- C1: for every sequence of speak calls, utterances are synthesized and
played strictly in submission order (ids are assigned in submission order and
the gateway-call, playback and settlement logs are strictly increasing in id),
and no two playback operations overlap in time (each playback interval ends
strictly before the next one starts, and each interval is non-degenerate):
the drain loop pops queue items from the head one at a time and awaits full
playback completion of each before starting the next. -/
theorem tts_fifo_order_no_overlap (evs : List Event) :
    List.Pairwise (· < ·) ((run evs).settled.map Prod.fst)
    ∧ List.Pairwise (· < ·) ((run evs).gatewayCalls.map Prod.fst)
    ∧ List.Pairwise (· < ·) ((run evs).playbacks.map Prod.fst)
    ∧ List.Pairwise (fun a b => a.2.2 < b.2.1) (run evs).playbacks
    ∧ (∀ p ∈ (run evs).playbacks, p.2.1 < p.2.2) := by
  have h := inv_run evs
  have hs := settledIds_sorted (run evs) h
  obtain ⟨hA, hB, hC, hD, hE, hF, hG, hH, hI⟩ := h
  exact ⟨hs, hC ▸ hs, hs.sublist hD, hE, fun p hp => (hF p hp).1⟩

/-- C1 witness: in the concrete two-speak run both playbacks happen in
submission order and the first ends before the second starts. -/
theorem tts_fifo_order_no_overlap_witness :
    ((0, 1, 2) ∈ (run [.speak "a", .speak "b", .drainStep .ok, .drainStep .ok]).playbacks)
    ∧ (1 : Nat) < 2 :=
  ⟨by decide,
   (tts_fifo_order_no_overlap [.speak "a", .speak "b", .drainStep .ok, .drainStep .ok]).2.2.2.2
     (0, 1, 2) (by decide)⟩

/-- C3: the mutual-exclusion flag is false at module load; in every reachable
state it is up exactly while the queue is non-empty (so it is true for the
whole duration of a drain loop and is reset exactly when the queue empties,
whatever the item outcomes — including failures — were); a speak call while a
loop is active only enqueues, starting no second loop; and after any run with
the guard down a speak call starts a fresh loop (the guard is never stuck). -/
theorem isProcessingQueue_lifecycle :
    initState.isProcessingQueue = false
    ∧ (∀ evs, (run evs).isProcessingQueue = !(run evs).ttsQueue.isEmpty)
    ∧ (∀ evs text, (run evs).isProcessingQueue = true →
        step (run evs) (.speak text)
          = { run evs with
                ttsQueue := (run evs).ttsQueue ++ [⟨(run evs).nextId, text⟩],
                nextId := (run evs).nextId + 1 })
    ∧ (∀ evs text, (run evs).isProcessingQueue = false →
        (step (run evs) (.speak text)).isProcessingQueue = true
        ∧ (step (run evs) (.speak text)).ttsQueue = [⟨(run evs).nextId, text⟩]) := by
  refine ⟨rfl, fun evs => (inv_run evs).2.1, ?_, ?_⟩
  · intro evs text hflag
    simp [step, hflag]
  · intro evs text hflag
    have hq : (run evs).ttsQueue = [] := queue_nil_of_flag_false _ (inv_run evs) hflag
    constructor
    · simp [step, hflag]
    · simp [step, hflag, hq]

/-- C3 witness: a concrete speak on the idle start state raises the guard and
begins a loop over exactly the new item. -/
theorem isProcessingQueue_lifecycle_witness :
    ((run []).isProcessingQueue = false)
    ∧ (step (run []) (.speak "hello")).isProcessingQueue = true
    ∧ (step (run []) (.speak "hello")).ttsQueue = [⟨0, "hello"⟩] :=
  ⟨by decide,
   (isProcessingQueue_lifecycle.2.2.2 [] "hello" (by decide)).1,
   (isProcessingQueue_lifecycle.2.2.2 [] "hello" (by decide)).2⟩

/-- C7: along every run, the successive contents written to the
playback-complete signal file carry strictly increasing timestamps (each write
samples the clock after its playback, and the clock strictly advances across
awaited synthesis/playback operations), and the file always holds the latest
write. -/
theorem completion_signal_monotone (evs : List Event) :
    List.Pairwise (· < ·) (run evs).completeWrites
    ∧ (run evs).completeFile = (run evs).completeWrites.getLast? := by
  have h := inv_run evs
  exact ⟨h.2.2.2.2.2.2.1, h.2.2.2.2.2.2.2.2⟩

/-- C2: a synthesis, playback or (per the catch-all try/catch) signal-write
failure for the queue head settles exactly that item with an error result
carrying the failure cause, pops it (never to be retried) and leaves the rest
of the queue for the loop to continue with; and whenever a run has fully
drained (empty queue), the settled ids are exactly all submitted ids, each
once, in submission order — so items enqueued after a failing one were all
still attempted. -/
theorem drain_failure_isolated :
    (∀ evs item rest outcome msg, (run evs).ttsQueue = item :: rest →
      (outcome = ItemOutcome.synthFail msg ∨ outcome = ItemOutcome.playFail msg) →
      (step (run evs) (.drainStep outcome)).settled
          = (run evs).settled ++ [(item.id, ⟨"Failed to speak: " ++ msg, true⟩)]
        ∧ (step (run evs) (.drainStep outcome)).ttsQueue = rest
        ∧ (step (run evs) (.drainStep outcome)).gatewayCalls
          = (run evs).gatewayCalls ++ [(item.id, item.text)])
    ∧ (∀ evs, (run evs).ttsQueue = [] →
        (run evs).settled.map Prod.fst = List.range (run evs).nextId) := by
  constructor
  · intro evs item rest outcome msg hq hfail
    rw [step_drain_eq (run evs) (inv_run evs) item rest hq outcome]
    rcases hfail with hf | hf <;> subst hf <;>
      exact ⟨rfl, rfl, rfl⟩
  · intro evs hq
    have hA := (inv_run evs).1
    rw [hq] at hA
    simpa using hA

/-- C2 witness: with item 0 failing at synthesis, the run settles item 0 with
an error and still attempts and settles item 1, draining completely. -/
theorem drain_failure_isolated_witness :
    ((run [.speak "a", .speak "b"]).ttsQueue = [⟨0, "a"⟩, ⟨1, "b"⟩])
    ∧ (step (run [.speak "a", .speak "b"]) (.drainStep (.synthFail "quota"))).settled
        = [(0, ⟨"Failed to speak: quota", true⟩)]
    ∧ ((run [.speak "a", .speak "b", .drainStep (.synthFail "quota"), .drainStep .ok]).ttsQueue
        = [])
    ∧ (run [.speak "a", .speak "b", .drainStep (.synthFail "quota"), .drainStep .ok]).settled.map
        Prod.fst = List.range 2 := by
  refine ⟨by decide, ?_, by decide, ?_⟩
  · have h := (drain_failure_isolated.1 [.speak "a", .speak "b"] ⟨0, "a"⟩ [⟨1, "b"⟩]
      (.synthFail "quota") "quota" (by decide) (Or.inl rfl)).1
    rw [h]
    decide
  · have h := drain_failure_isolated.2
      [.speak "a", .speak "b", .drainStep (.synthFail "quota"), .drainStep .ok] (by decide)
    rw [h]
    decide

/-- C4 counterexample: the claim says empty text is rejected before enqueue and
never reaches the queue or the gateway; in the code `speak("")` is pushed onto
the queue unvalidated (the input schema is a bare string), the gateway convert
call is made with the empty text, and the item even resolves successfully. -/
theorem speak_empty_text_reaches_queue_and_gateway :
    (run [.speak ""]).ttsQueue = [⟨0, ""⟩]
    ∧ (run [.speak "", .drainStep .ok]).gatewayCalls = [(0, "")]
    ∧ (run [.speak "", .drainStep .ok]).settled = [(0, ⟨"Spoken: \"\"", false⟩)] := by
  decide

/-- C4 amended: speak performs no validation at all — every text, the empty and
whitespace-only ones included, is enqueued at the tail of the FIFO queue, and
when its turn comes the Synthesis Gateway is invoked with exactly that text. -/
theorem speak_enqueues_any_text :
    (∀ evs text, (step (run evs) (.speak text)).ttsQueue
        = (run evs).ttsQueue ++ [⟨(run evs).nextId, text⟩])
    ∧ (∀ evs item rest outcome, (run evs).ttsQueue = item :: rest →
        (step (run evs) (.drainStep outcome)).gatewayCalls
          = (run evs).gatewayCalls ++ [(item.id, item.text)]) := by
  constructor
  · intro evs text
    simp only [step]
    split <;> rfl
  · intro evs item rest outcome hq
    rw [step_drain_eq (run evs) (inv_run evs) item rest hq outcome]
    rfl

/-- C4 amended witness: the empty text is enqueued and handed to the gateway. -/
theorem speak_enqueues_any_text_witness :
    (step (run []) (.speak "")).ttsQueue = [⟨0, ""⟩]
    ∧ (step (run [.speak ""]) (.drainStep .ok)).gatewayCalls = [(0, "")] := by
  constructor
  · have h := speak_enqueues_any_text.1 [] ""
    rw [h]
    decide
  · have h := speak_enqueues_any_text.2 [.speak ""] ⟨0, ""⟩ [] .ok (by decide)
    rw [h]
    decide

/-- C5 counterexample: the claim says a signal-file write failure must not fail
the overall speak/listen result; in the code the completion-signal write sits
inside the try block before `item.resolve`, so after a fully successful
synthesis and playback a throwing write lands in the catch block and the item
is rejected with the write error; likewise a throwing listen-signal write makes
the listen handler return an error-flagged result. -/
theorem signal_write_failure_fails_results :
    (run [.speak "hi", .drainStep (.writeFail "EACCES")]).playbacks = [(0, 1, 2)]
    ∧ (run [.speak "hi", .drainStep (.writeFail "EACCES")]).settled
        = [(0, ⟨"Failed to speak: EACCES", true⟩)]
    ∧ listenHandler true (some "EACCES") 7 none
        = (⟨"Failed to start listening: EACCES", true⟩, none) := by
  decide

/-- C5 amended: a failure writing the playback-complete file after a successful
playback rejects exactly that item's result with the failure cause (the file
keeps its previous content and the loop continues with the rest of the queue),
and a failure writing the listen-signal file makes listen() return an
error-flagged "Failed to start listening" result with the file unchanged; in
both cases the error is caught and no exception escapes. -/
theorem signal_write_failure_behavior
    (evs : List Event) (item : TTSQueueItem) (rest : List TTSQueueItem) (msg : String)
    (hq : (run evs).ttsQueue = item :: rest) :
    (step (run evs) (.drainStep (.writeFail msg))).settled
        = (run evs).settled ++ [(item.id, ⟨"Failed to speak: " ++ msg, true⟩)]
    ∧ (step (run evs) (.drainStep (.writeFail msg))).playbacks
        = (run evs).playbacks ++ [(item.id, (run evs).now + 1, (run evs).now + 2)]
    ∧ (step (run evs) (.drainStep (.writeFail msg))).completeFile = (run evs).completeFile
    ∧ (step (run evs) (.drainStep (.writeFail msg))).ttsQueue = rest
    ∧ (∀ now file m, listenHandler true (some m) now file
        = (⟨"Failed to start listening: " ++ m, true⟩, file)) := by
  rw [step_drain_eq (run evs) (inv_run evs) item rest hq (.writeFail msg)]
  exact ⟨rfl, rfl, rfl, rfl, fun now file m => rfl⟩

/-- C5 amended witness: concrete write failure after a successful playback. -/
theorem signal_write_failure_behavior_witness :
    (step (run [.speak "hi"]) (.drainStep (.writeFail "EIO"))).settled
        = [(0, ⟨"Failed to speak: EIO", true⟩)]
    ∧ listenHandler true (some "EIO") 3 (some ⟨1, true⟩)
        = (⟨"Failed to start listening: EIO", true⟩, some ⟨1, true⟩) := by
  have h := signal_write_failure_behavior [.speak "hi"] ⟨0, "hi"⟩ [] "EIO" (by decide)
  constructor
  · rw [h.1]
    decide
  · exact h.2.2.2.2 3 (some ⟨1, true⟩) "EIO"

/-- C6: the listen handler with autoListen disabled leaves the listen-signal
file untouched whatever the environment does and returns the non-error
"Auto-listen is disabled" result (so repeated calls are a no-op); with
autoListen enabled and the filesystem write succeeding it overwrites the file
with exactly one fresh record carrying the current timestamp and triggered
set, whatever the previous content was, and returns the non-error
"Listening for user input..." result. -/
theorem listen_contract :
    (∀ writeErr now file, listenHandler false writeErr now file
        = (⟨"Auto-listen is disabled", false⟩, file))
    ∧ (∀ now file, listenHandler true none now file
        = (⟨"Listening for user input...", false⟩, some ⟨now, true⟩)) :=
  ⟨fun _ _ _ => rfl, fun _ _ => rfl⟩

/-- C8: loadConfig is total (never throws): a missing, unreadable or
unparsable config.json yields the full default configuration, and for any
parsed partial contents every field of the returned Config is populated —
present top-level fields keep the file's values, absent ones take the
defaults, and inside voiceSettings, autoSubmit and wisprLoop each present
nested field keeps the file's value while each absent one takes its default. -/
theorem loadConfig_total_defaults_merge :
    (loadConfig .absent = DEFAULT_CONFIG
      ∧ loadConfig .unreadable = DEFAULT_CONFIG
      ∧ loadConfig .invalidJson = DEFAULT_CONFIG)
    ∧ (∀ p, (loadConfig (.json p)).apiKey = p.apiKey.getD DEFAULT_CONFIG.apiKey
        ∧ (loadConfig (.json p)).voiceId = p.voiceId.getD DEFAULT_CONFIG.voiceId
        ∧ (loadConfig (.json p)).model = p.model.getD DEFAULT_CONFIG.model
        ∧ (loadConfig (.json p)).autoListen = p.autoListen.getD DEFAULT_CONFIG.autoListen)
    ∧ (∀ p, p.voiceSettings = none →
        (loadConfig (.json p)).voiceSettings = DEFAULT_VOICE_SETTINGS)
    ∧ (∀ p pv, p.voiceSettings = some pv →
        (loadConfig (.json p)).voiceSettings.speed
            = pv.speed.getD DEFAULT_VOICE_SETTINGS.speed
          ∧ (loadConfig (.json p)).voiceSettings.stability
            = pv.stability.getD DEFAULT_VOICE_SETTINGS.stability
          ∧ (loadConfig (.json p)).voiceSettings.similarityBoost
            = pv.similarityBoost.getD DEFAULT_VOICE_SETTINGS.similarityBoost
          ∧ (loadConfig (.json p)).voiceSettings.style
            = pv.style.getD DEFAULT_VOICE_SETTINGS.style)
    ∧ (∀ p, p.autoSubmit = none →
        (loadConfig (.json p)).autoSubmit = DEFAULT_AUTO_SUBMIT)
    ∧ (∀ p pa, p.autoSubmit = some pa →
        (loadConfig (.json p)).autoSubmit.enabled
            = pa.enabled.getD DEFAULT_AUTO_SUBMIT.enabled
          ∧ (loadConfig (.json p)).autoSubmit.silenceDelay
            = pa.silenceDelay.getD DEFAULT_AUTO_SUBMIT.silenceDelay
          ∧ (loadConfig (.json p)).autoSubmit.minTextLength
            = pa.minTextLength.getD DEFAULT_AUTO_SUBMIT.minTextLength
          ∧ (loadConfig (.json p)).autoSubmit.targetApp
            = pa.targetApp.getD DEFAULT_AUTO_SUBMIT.targetApp)
    ∧ (∀ p, p.wisprLoop = none →
        (loadConfig (.json p)).wisprLoop = DEFAULT_WISPR_LOOP)
    ∧ (∀ p pw, p.wisprLoop = some pw →
        (loadConfig (.json p)).wisprLoop.enabled
            = pw.enabled.getD DEFAULT_WISPR_LOOP.enabled
          ∧ (loadConfig (.json p)).wisprLoop.ttsDelay
            = pw.ttsDelay.getD DEFAULT_WISPR_LOOP.ttsDelay
          ∧ (loadConfig (.json p)).wisprLoop.silenceThreshold
            = pw.silenceThreshold.getD DEFAULT_WISPR_LOOP.silenceThreshold
          ∧ (loadConfig (.json p)).wisprLoop.silenceDuration
            = pw.silenceDuration.getD DEFAULT_WISPR_LOOP.silenceDuration
          ∧ (loadConfig (.json p)).wisprLoop.wisprHotkey
            = pw.wisprHotkey.getD DEFAULT_WISPR_LOOP.wisprHotkey
          ∧ (loadConfig (.json p)).wisprLoop.manualTriggerHotkey
            = pw.manualTriggerHotkey.getD DEFAULT_WISPR_LOOP.manualTriggerHotkey) := by
  refine ⟨⟨rfl, rfl, rfl⟩, ?_, ?_, ?_, ?_, ?_, ?_, ?_⟩
  · exact fun p => ⟨rfl, rfl, rfl, rfl⟩
  · intro p h
    simp [loadConfig, h, mergeVoiceSettings]
  · intro p pv h
    simp [loadConfig, h, mergeVoiceSettings]
  · intro p h
    simp [loadConfig, h, mergeAutoSubmit]
  · intro p pa h
    simp [loadConfig, h, mergeAutoSubmit]
  · intro p h
    simp [loadConfig, h, mergeWisprLoop]
  · intro p pw h
    simp [loadConfig, h, mergeWisprLoop]

/-- A sample partial config.json: an apiKey, a voiceSettings object giving only
the speed, everything else absent. -/
def samplePatch : ConfigPatch :=
  { apiKey := some "sk-live-key", voiceSettings := some { speed := some 1.1 } }

/-- C8 witness: on the sample partial file the present fields keep the file's
values and the absent ones take the defaults. -/
theorem loadConfig_total_defaults_merge_witness :
    (loadConfig (.json samplePatch)).apiKey = "sk-live-key"
    ∧ (loadConfig (.json samplePatch)).voiceSettings.speed = 1.1
    ∧ (loadConfig (.json samplePatch)).voiceSettings.stability = 0.5
    ∧ (loadConfig (.json samplePatch)).autoSubmit = DEFAULT_AUTO_SUBMIT := by
  have h1 := (loadConfig_total_defaults_merge.2.1 samplePatch).1
  have h2 := loadConfig_total_defaults_merge.2.2.2.1 samplePatch
    { speed := some 1.1 } rfl
  have h3 := loadConfig_total_defaults_merge.2.2.2.2.1 samplePatch rfl
  exact ⟨h1.trans rfl, h2.1.trans rfl, h2.2.1.trans rfl, h3⟩

/-- C9 counterexample: the claim says the apiKey field of the GET /api/config
response is maskKey of the stored key for every stored key; with the stored
key empty (for example with no config file, where the default key is "") the
handler's truthiness check returns the empty string instead, while
maskKey("") is "****". -/
theorem api_config_mask_empty_key_mismatch :
    (loadConfig .absent).apiKey = ""
    ∧ (getApiConfig .absent).apiKey = ""
    ∧ maskKey "" = "****"
    ∧ (getApiConfig .absent).apiKey ≠ maskKey (loadConfig .absent).apiKey := by
  refine ⟨rfl, rfl, rfl, ?_⟩
  decide

/-- C9 amended: the settings API never returns a non-empty stored key in
full — for every non-empty stored key the apiKey field of the GET and POST
/api/config responses is maskKey(key), where maskKey returns "****" for keys
of at most 8 characters and otherwise the first 4 characters, "****", then
the last 4; for an empty stored key the field is the empty string. -/
theorem api_config_masks_key :
    (∀ fs, (loadConfig fs).apiKey ≠ "" →
        (getApiConfig fs).apiKey = maskKey (loadConfig fs).apiKey)
    ∧ (∀ fs, (loadConfig fs).apiKey = "" → (getApiConfig fs).apiKey = "")
    ∧ (∀ fs body, (postApiConfig fs body).1.apiKey ≠ "" →
        (postApiConfig fs body).2.apiKey = maskKey (postApiConfig fs body).1.apiKey)
    ∧ (∀ k : String, k.length ≤ 8 → maskKey k = "****")
    ∧ (∀ k : String, 8 < k.length →
        maskKey k = k.take 4 ++ "****" ++ k.drop (k.length - 4)) := by
  refine ⟨?_, ?_, ?_, ?_, ?_⟩
  · intro fs h
    simp [getApiConfig, configResponse, h]
  · intro fs h
    simp [getApiConfig, configResponse, h]
  · intro fs body h
    simp only [postApiConfig] at h ⊢
    simp [configResponse, h]
  · intro k h
    simp [maskKey, h]
  · intro k h
    rw [maskKey, if_neg (by omega)]

/-- C9 amended witness: a 12-character stored key is masked to its first and
last 4 characters in the GET response, and a short key masks to "****". -/
theorem api_config_masks_key_witness :
    ((loadConfig (.json { apiKey := some "abcdefghijkl" })).apiKey ≠ "")
    ∧ (getApiConfig (.json { apiKey := some "abcdefghijkl" })).apiKey = "abcd****ijkl"
    ∧ maskKey "short" = "****" := by
  refine ⟨by decide, ?_, ?_⟩
  · have h := api_config_masks_key.1 (.json { apiKey := some "abcdefghijkl" }) (by decide)
    rw [h]
    decide
  · exact api_config_masks_key.2.2.2.1 "short" (by decide)

/-- C10: in the POST /api/config handler, a body whose apiKey is absent or the
empty string leaves the persisted apiKey unchanged (a present non-empty
apiKey replaces it); every other field present in the body replaces the
persisted value, and every field absent from the body keeps the previously
persisted value. -/
theorem post_config_update_frame (fs : ConfigFile) (body : PostBody) :
    ((body.apiKey = none ∨ body.apiKey = some "") →
        (postApiConfig fs body).1.apiKey = (loadConfig fs).apiKey)
    ∧ (∀ k, body.apiKey = some k → k ≠ "" → (postApiConfig fs body).1.apiKey = k)
    ∧ (∀ v, body.voiceId = some v → (postApiConfig fs body).1.voiceId = v)
    ∧ (body.voiceId = none → (postApiConfig fs body).1.voiceId = (loadConfig fs).voiceId)
    ∧ (∀ v, body.model = some v → (postApiConfig fs body).1.model = v)
    ∧ (body.model = none → (postApiConfig fs body).1.model = (loadConfig fs).model)
    ∧ (∀ v, body.voiceSettings = some v → (postApiConfig fs body).1.voiceSettings = v)
    ∧ (body.voiceSettings = none →
        (postApiConfig fs body).1.voiceSettings = (loadConfig fs).voiceSettings)
    ∧ (∀ v, body.autoSubmit = some v → (postApiConfig fs body).1.autoSubmit = v)
    ∧ (body.autoSubmit = none →
        (postApiConfig fs body).1.autoSubmit = (loadConfig fs).autoSubmit)
    ∧ (∀ v, body.wisprLoop = some v → (postApiConfig fs body).1.wisprLoop = v)
    ∧ (body.wisprLoop = none →
        (postApiConfig fs body).1.wisprLoop = (loadConfig fs).wisprLoop)
    ∧ (∀ v, body.autoListen = some v → (postApiConfig fs body).1.autoListen = v)
    ∧ (body.autoListen = none →
        (postApiConfig fs body).1.autoListen = (loadConfig fs).autoListen) := by
  refine ⟨?_, ?_, ?_, ?_, ?_, ?_, ?_, ?_, ?_, ?_, ?_, ?_, ?_, ?_⟩
  · rintro (h | h) <;>
      simp [postApiConfig, saveConfig, applyUpdates, buildUpdates, h]
  · intro k hk hne
    simp [postApiConfig, saveConfig, applyUpdates, buildUpdates, hk, hne]
  · intro v h
    simp [postApiConfig, saveConfig, applyUpdates, buildUpdates, h]
  · intro h
    simp [postApiConfig, saveConfig, applyUpdates, buildUpdates, h]
  · intro v h
    simp [postApiConfig, saveConfig, applyUpdates, buildUpdates, h]
  · intro h
    simp [postApiConfig, saveConfig, applyUpdates, buildUpdates, h]
  · intro v h
    simp [postApiConfig, saveConfig, applyUpdates, buildUpdates, h]
  · intro h
    simp [postApiConfig, saveConfig, applyUpdates, buildUpdates, h]
  · intro v h
    simp [postApiConfig, saveConfig, applyUpdates, buildUpdates, h]
  · intro h
    simp [postApiConfig, saveConfig, applyUpdates, buildUpdates, h]
  · intro v h
    simp [postApiConfig, saveConfig, applyUpdates, buildUpdates, h]
  · intro h
    simp [postApiConfig, saveConfig, applyUpdates, buildUpdates, h]
  · intro v h
    simp [postApiConfig, saveConfig, applyUpdates, buildUpdates, h]
  · intro h
    simp [postApiConfig, saveConfig, applyUpdates, buildUpdates, h]

/-- C10 witness: a body with an empty apiKey and a new voiceId leaves the
persisted key unchanged and updates the voiceId, and the absent model keeps
its persisted value. -/
theorem post_config_update_frame_witness :
    (postApiConfig (.json { apiKey := some "sk-old-key-1" })
        { apiKey := some "", voiceId := some "newVoice" }).1.apiKey = "sk-old-key-1"
    ∧ (postApiConfig (.json { apiKey := some "sk-old-key-1" })
        { apiKey := some "", voiceId := some "newVoice" }).1.voiceId = "newVoice"
    ∧ (postApiConfig (.json { apiKey := some "sk-old-key-1" })
        { apiKey := some "", voiceId := some "newVoice" }).1.model = "eleven_flash_v2_5" := by
  have h := post_config_update_frame (.json { apiKey := some "sk-old-key-1" })
    { apiKey := some "", voiceId := some "newVoice" }
  refine ⟨?_, ?_, ?_⟩
  · rw [h.1 (Or.inr rfl)]
    decide
  · exact h.2.2.1 "newVoice" rfl
  · rw [h.2.2.2.2.2.1 rfl]
    decide

end TalkToCursor
